import Mathlib

/-!
Verification development for the banking multi-agent workshop repository.

Part 1 models the conversational routing layer of
`src/python/src/app/banking_agents.py`: the handoff extraction from tool
messages, the four agent handler functions (coordinator, customer support,
sales, transactions), their self-route guards, and the values they pass to
`patch_active_agent`.

Part 2 models the transactional ledger layer:
`src/python/src/app/tools/transactions.py` (`transfer`, `bank_transaction`),
`src/python/src/app/tools/mcp_server.py` (`_call_bank_transfer_direct`) and
`src/mcpserver/src/mcp_http_server.py` (`call_bank_transfer`).

Machine reals (Python floats) are modelled as `Int`: no claim proved here
depends on rounding, only on exact arithmetic identities. The text rendering
of an amount inside a result message is modelled by `intStr`.
-/

namespace BankingSpec

/-! ## Part 1: routing layer -/

/-- A message in a handler response, as seen by
`extract_goto_from_tool_messages`. `isTool` models
`isinstance(m, ToolMessage)`. `content` models the result of
`json.loads(m.content)`: `some kvs` when the content parses as a JSON object
with the given fields (values restricted to strings, which is the shape the
handoff tools emit), `none` when parsing raises or yields a non-object
(both make the Python loop move on to the next message). -/
structure Msg where
  isTool : Bool
  content : Option (List (String × String))
deriving Repr, DecidableEq

/-- Key lookup in an association list, first match wins (models both a
Python dict field access and a document-store point read). -/
def lookupKey (k : String) : List (String × α) → Option α
  | [] => none
  | (k2, v) :: rest => if k = k2 then some v else lookupKey k rest

/-- Model of `extract_goto_from_tool_messages` (banking_agents.py, lines
36-50): scan the response messages in order; on the first `ToolMessage`
whose content parses as an object containing a `goto` field, return that
value; any other message (non-tool, unparsable, or without `goto`) is
skipped; if the scan ends without a match, return "human". -/
def extract_goto_from_tool_messages : List Msg → String
  | [] => "human"
  | m :: rest =>
    if m.isTool then
      match m.content with
      | some kvs =>
        match lookupKey "goto" kvs with
        | some v => v
        | none => extract_goto_from_tool_messages rest
      | none => extract_goto_from_tool_messages rest
    else extract_goto_from_tool_messages rest

/-- Spec-side reformulation of the ToolCallInterpreter contract (spec 4.2),
written from the words of the spec for the refinement proof of C6: among
the tool-role messages, in order, take the first decoded `goto` field. -/
def specFirstGoto (msgs : List Msg) : Option String :=
  ((msgs.filter (fun m => m.isTool)).filterMap
    (fun m => m.content.bind (fun kvs => lookupKey "goto" kvs))).head?

/-- Model of `call_customer_support_agent` (banking_agents.py, lines
178-191). Returns the list of values passed to `patch_active_agent`
(in order) and the final `goto` of the returned `Command`. In the source
the self-route override `goto = "human"` on line 188 is commented out, so
only the warning is printed and the candidate target is returned as is. -/
def call_customer_support_agent_step (localInteractiveMode : Bool)
    (response : List Msg) : List String × String :=
  let persisted := if localInteractiveMode then ["customer_support_agent"] else []
  let goto := extract_goto_from_tool_messages response
  (persisted, goto)

/-- Model of `call_sales_agent` (banking_agents.py, lines 194-208):
persist own name when in local interactive mode, then extract the handoff
target and override a self-route to "human". -/
def call_sales_agent_step (localInteractiveMode : Bool)
    (response : List Msg) : List String × String :=
  let persisted := if localInteractiveMode then ["sales_agent"] else []
  let goto := extract_goto_from_tool_messages response
  (persisted, if goto = "sales_agent" then "human" else goto)

/-- Model of `call_transactions_agent` (banking_agents.py, lines 212-226). -/
def call_transactions_agent_step (localInteractiveMode : Bool)
    (response : List Msg) : List String × String :=
  let persisted := if localInteractiveMode then ["transactions_agent"] else []
  let goto := extract_goto_from_tool_messages response
  (persisted, if goto = "transactions_agent" then "human" else goto)

/-- Model of `call_coordinator_agent` (banking_agents.py, lines 125-175).
`activeAgent` is the result of the chat-container point read:
`some a` when the read succeeded (with `a = "unknown"` when the field was
missing, matching the Python default of the field read), `none` when the read
raised. `coordResponse` is the message list the coordinator capability
would return if invoked. The result is
(values written as activeAgent, (coordinator was invoked, final goto)).
When the read raised and `local_interactive_mode` is set, the source
creates the chat record with `activeAgent = "unknown"` via
`update_chat_container`. -/
def coordinatorInvoke (coordResponse : List Msg) : Bool × String :=
  let goto := extract_goto_from_tool_messages coordResponse
  (true, if goto = "coordinator_agent" then "human" else goto)

/-- Routing decision of `call_coordinator_agent`: the fast path dispatches
to the stored agent without invoking the coordinator capability; otherwise
the coordinator is invoked and its handoff interpreted with the self-route
guard. Python condition: `activeAgent not in [None, "unknown",
"coordinator_agent"]`. -/
def coordinatorRoute (activeAgent : Option String)
    (coordResponse : List Msg) : Bool × String :=
  match activeAgent with
  | some a =>
    if a = "unknown" ∨ a = "coordinator_agent" then coordinatorInvoke coordResponse
    else (false, a)
  | none => coordinatorInvoke coordResponse

def call_coordinator_agent_step (localInteractiveMode : Bool)
    (activeAgent : Option String) (coordResponse : List Msg) :
    List String × (Bool × String) :=
  (match activeAgent with
   | none => if localInteractiveMode then ["unknown"] else []
   | some _ => [],
   coordinatorRoute activeAgent coordResponse)

/-! ## Routing theorems -/

/-- C6: the handoff interpreter returns the goto value of the first
tool-role message whose content parses as structured data containing a
goto field, scanning in order and stopping at the first match; if every
tool message is unparsable or lacks a goto field, or there are no tool
messages at all, it returns "human". Stated as a refinement: the source
recursion equals the spec-side first-match formulation with default
"human". -/
theorem C6_first_goto_wins (msgs : List Msg) :
    extract_goto_from_tool_messages msgs = (specFirstGoto msgs).getD "human" := by
  induction msgs with
  | nil => rfl
  | cons m rest ih =>
    by_cases ht : m.isTool
    · cases hc : m.content with
      | none =>
        simp [extract_goto_from_tool_messages, specFirstGoto, ht, hc] at ih ⊢
        exact ih
      | some kvs =>
        cases hg : lookupKey "goto" kvs with
        | none =>
          simp [extract_goto_from_tool_messages, specFirstGoto, ht, hc, hg] at ih ⊢
          exact ih
        | some v =>
          simp [extract_goto_from_tool_messages, specFirstGoto, ht, hc, hg]
    · simp [extract_goto_from_tool_messages, specFirstGoto, ht] at ih ⊢
      exact ih

/-- C4 failing input: the customer support handler receives a response
whose tool message hands off to the customer support handler itself. The
source prints a warning claiming to override the self-route to "human",
but the override assignment is commented out (banking_agents.py line 188),
so the final target equals the handler that just executed, contradicting
the claim. -/
theorem C4_self_route_not_overridden :
    (call_customer_support_agent_step false
      [{ isTool := true, content := some [("goto", "customer_support_agent")] }]).2
      = "customer_support_agent" := rfl

/-- C5: whenever the persisted activeAgent read for the thread yields a
concrete handler other than "coordinator_agent" and other than "unknown",
the coordinator node dispatches directly to that handler: the coordinator
capability is not invoked (flag `false`) and the final goto is the stored
agent, irrespective of what the coordinator would have answered. -/
theorem C5_sticky_fast_path (localInteractiveMode : Bool) (a : String)
    (coordResponse : List Msg)
    (h1 : a ≠ "unknown") (h2 : a ≠ "coordinator_agent") :
    (call_coordinator_agent_step localInteractiveMode (some a) coordResponse).2
      = (false, a) := by
  simp [call_coordinator_agent_step, coordinatorRoute, h1, h2]

/-- C5 witness: with stored activeAgent "sales_agent", the coordinator
node routes straight to it without invoking the coordinator capability. -/
theorem C5_sticky_fast_path_witness :
    (call_coordinator_agent_step false (some "sales_agent")
      [{ isTool := true, content := some [("goto", "transactions_agent")] }]).2
      = (false, "sales_agent") :=
  C5_sticky_fast_path false "sales_agent"
    [{ isTool := true, content := some [("goto", "transactions_agent")] }]
    (by decide) (by decide)

/-- C9 counterexample: with `local_interactive_mode = false` (the server
configuration), the customer support handler finishes a turn whose final
target is the concrete agent "sales_agent", yet no value at all is passed
to `patch_active_agent`: the final target is not persisted, refuting the
claim as stated. -/
theorem C9_final_target_not_persisted :
    (call_customer_support_agent_step false
      [{ isTool := true, content := some [("goto", "sales_agent")] }])
      = ([], "sales_agent") := rfl

/-- C9 amended: what the routing code actually persists. Each
non-coordinator handler passes exactly its own name to
`patch_active_agent`, at entry, and only when `local_interactive_mode` is
true; the coordinator node persists nothing except creating the chat
record with activeAgent "unknown" when the point read fails in local
interactive mode; in particular the value "human" is never persisted as
the active agent, and the final goto target itself is never persisted. -/
theorem C9_persistence_discipline (m : Bool) (r coordResponse : List Msg)
    (activeAgent : Option String) :
    (call_sales_agent_step m r).1 = (if m then ["sales_agent"] else []) ∧
    (call_transactions_agent_step m r).1 = (if m then ["transactions_agent"] else []) ∧
    (call_customer_support_agent_step m r).1
      = (if m then ["customer_support_agent"] else []) ∧
    (call_coordinator_agent_step m activeAgent coordResponse).1
      = (if m ∧ activeAgent = none then ["unknown"] else []) ∧
    ¬ "human" ∈ (call_sales_agent_step m r).1 ∧
    ¬ "human" ∈ (call_transactions_agent_step m r).1 ∧
    ¬ "human" ∈ (call_customer_support_agent_step m r).1 ∧
    ¬ "human" ∈ (call_coordinator_agent_step m activeAgent coordResponse).1 := by
  cases m <;> cases activeAgent <;>
    simp [call_sales_agent_step, call_transactions_agent_step,
      call_customer_support_agent_step, call_coordinator_agent_step]

/-! ## Part 2: transactional ledger layer -/

/-- Decimal rendering of an integer amount or balance, modelling the text
interpolation of the Python f-strings (Nat.repr for naturals, a leading
minus sign for negatives). -/
def intStr : Int → String
  | Int.ofNat m => Nat.repr m
  | Int.negSucc m => "-" ++ Nat.repr (m + 1)

/-- A bank account document: the stored accountId and balance. The fields
tenantId and userId of the document do not influence any modelled path
once the point read has succeeded, so they are not carried. -/
structure Account where
  accountId : String
  balance : Int
deriving Repr, DecidableEq

/-- A ledger transaction record as written by transactions.py and
mcp_server.py (constant fields type = "BankTransaction", details, and the
wall-clock timestamp are omitted from the model). -/
structure Txn where
  id : String
  tenantId : String
  accountId : String
  debitAmount : Int
  creditAmount : Int
  accountBalance : Int
deriving Repr, DecidableEq

/-- The document store visible to the ledger code: accounts keyed by
account number, the latest transaction number per account (what
`fetch_latest_transaction_number` answers), and the append-only list of
created transaction records. -/
structure BankState where
  accounts : List (String × Account)
  latestNum : List (String × Nat)
  txns : List Txn
deriving Repr, DecidableEq

def fetch_account_by_number (s : BankState) (account_number : String) :
    Option Account :=
  lookupKey account_number s.accounts

def fetch_latest_transaction_number (s : BankState) (account_number : String) : Nat :=
  (lookupKey account_number s.latestNum).getD 0

/-- Patch the balance of every stored account whose accountId matches
(the Python `patch_account_record` addresses the document by accountId,
not by account number). -/
def patchAccounts (l : List (String × Account)) (accountId : String)
    (newBalance : Int) : List (String × Account) :=
  l.map (fun p =>
    (p.1, if p.2.accountId = accountId then { p.2 with balance := newBalance } else p.2))

def patch_account_record (s : BankState) (accountId : String)
    (newBalance : Int) : BankState :=
  { s with accounts := patchAccounts s.accounts accountId newBalance }

/-- Inserting a transaction record with id `account_number-num` makes
`fetch_latest_transaction_number account_number` answer `num` from then
on; the record is appended to the ledger. -/
def create_transaction_record (s : BankState) (account_number : String)
    (num : Nat) (t : Txn) : BankState :=
  { s with
    txns := s.txns ++ [t]
    latestNum := (account_number, num) :: s.latestNum }

def balanceOf (s : BankState) (account_number : String) : Option Int :=
  (fetch_account_by_number s account_number).map (fun a => a.balance)

/-- Pattern chars match the text chars position by position. -/
def matchesAt : List Char → List Char → Bool
  | [], _ => true
  | _ :: _, [] => false
  | p :: ps, c :: cs => p = c && matchesAt ps cs

/-- Substring occurrence over char lists. -/
def occursIn (pat : List Char) : List Char → Bool
  | [] => matchesAt pat []
  | c :: cs => matchesAt pat (c :: cs) || occursIn pat cs

/-- Model of the Python substring test `"Failed" in msg` used by
`transfer` to detect a failed leg. -/
def containsFailed (msg : String) : Bool :=
  occursIn "Failed".data msg.data

/-- The retry loop skeleton of `bank_transaction`
(transactions.py, lines 48-72): `read k` models what
`fetch_latest_transaction_number` returns on attempt `k` (re-read on every
attempt), `confl k` models attempt `k` raising (a write conflict on
`create_transaction_record` or a failing read). The second argument is
the current attempt index, the third the remaining attempts. The result
is the attempt index on which the write succeeded together with the
number read on that same attempt, or `none` when every attempt failed. -/
def runAttempts (read : Nat → Nat) (confl : Nat → Bool) :
    Nat → Nat → Option (Nat × Nat)
  | _, 0 => none
  | attempt, fuel + 1 =>
    if confl attempt then runAttempts read confl (attempt + 1) fuel
    else some (attempt, read attempt)

/-- The transaction record built inside the retry loop of
`bank_transaction` from the freshly read latest number. -/
def ledgerTxn (tenantId : String) (account : Account) (account_number : String)
    (latest : Nat) (credit_account debit_account : Int) : Txn :=
  { id := account_number ++ "-" ++ intStr (Int.ofNat (latest + 1))
    tenantId := tenantId
    accountId := account.accountId
    debitAmount := debit_account
    creditAmount := credit_account
    accountBalance := account.balance + credit_account - debit_account }

/-- Model of `bank_transaction` (transactions.py, lines 36-75): fetch the
account by number (not-found is a plain message), then retry the
latest-number read and record write up to 5 times; on success append the
record and patch the account balance; after 5 failed attempts return the
error message with the store untouched. The exception text interpolated
into the failure message is modelled by the constant "conflict". -/
def bank_transaction (read : Nat → Nat) (confl : Nat → Bool)
    (tenantId userId : String) (s : BankState) (account_number : String)
    (amount credit_account debit_account : Int) : BankState × String :=
  match fetch_account_by_number s account_number with
  | none =>
    (s, "Account " ++ account_number ++ " not found for tenant " ++ tenantId
        ++ " and user " ++ userId)
  | some account =>
    match runAttempts read confl 0 5 with
    | none => (s, "Failed to create transaction record after 5 attempts: conflict")
    | some (_, latest) =>
      let new_balance := account.balance + credit_account - debit_account
      let t := ledgerTxn tenantId account account_number latest credit_account debit_account
      let s1 := create_transaction_record s account_number (latest + 1) t
      (patch_account_record s1 account.accountId new_balance,
       "Successfully transferred $" ++ intStr amount ++ " to account number "
         ++ account_number)

/-- Model of `transfer` (transactions.py, lines 20-33): debit leg on the
source account, then, unless the debit result message contains "Failed",
credit leg on the destination; unless the credit result message contains
"Failed", report success. `conflD` and `conflC` model the environment of
each leg; each leg reads the latest transaction number from the store
state at its start (the sequential semantics). Parameter order follows
the source (`toAccount` before `fromAccount`). -/
def transfer (conflD conflC : Nat → Bool) (tenantId userId : String)
    (s : BankState) (toAccount fromAccount : String) (amount : Int) :
    BankState × String :=
  let r1 := bank_transaction (fun _ => fetch_latest_transaction_number s fromAccount)
    conflD tenantId userId s fromAccount amount 0 amount
  if containsFailed r1.2 then
    (r1.1, "Failed to debit amount from " ++ fromAccount ++ ": " ++ r1.2)
  else
    let r2 := bank_transaction
      (fun _ => fetch_latest_transaction_number r1.1 toAccount)
      conflC tenantId userId r1.1 toAccount amount amount 0
    if containsFailed r2.2 then
      (r2.1, "Failed to credit amount to " ++ toAccount ++ ": " ++ r2.2)
    else
      (r2.1, "Successfully transferred $" ++ intStr amount ++ " from account "
        ++ fromAccount ++ " to account " ++ toAccount)

/-- Model of `_call_bank_transfer_direct` (mcp_server.py, lines 342-424):
validate the amount, then the presence of both account numbers, fetch the
source, check the balance, fetch the destination, then write the debit
record, patch the source, write the credit record, patch the destination.
No retry loop exists on this path; store operations are assumed to
succeed (the surrounding try/except is not modelled). -/
def bank_transfer_direct (tenantId userId : String) (s : BankState)
    (fromAccount toAccount : String) (amount : Int) : BankState × String :=
  if amount ≤ 0 then (s, "Transfer amount must be greater than zero.")
  else if fromAccount = "" ∨ toAccount = "" then
    (s, "Both from and to account numbers are required.")
  else
    match fetch_account_by_number s fromAccount with
    | none => (s, "Source account " ++ fromAccount ++ " not found.")
    | some from_account_data =>
      if from_account_data.balance < amount then
        (s, "Insufficient funds in account " ++ fromAccount
            ++ ". Current balance: $" ++ intStr from_account_data.balance)
      else
        match fetch_account_by_number s toAccount with
        | none => (s, "Destination account " ++ toAccount ++ " not found.")
        | some to_account_data =>
          let n1 := fetch_latest_transaction_number s fromAccount
          let debitTxn : Txn :=
            { id := fromAccount ++ "-" ++ intStr (Int.ofNat (n1 + 1))
              tenantId := tenantId
              accountId := from_account_data.accountId
              debitAmount := amount
              creditAmount := 0
              accountBalance := from_account_data.balance - amount }
          let s1 := create_transaction_record s fromAccount (n1 + 1) debitTxn
          let s2 := patch_account_record s1 from_account_data.accountId
            (from_account_data.balance - amount)
          let n2 := fetch_latest_transaction_number s2 toAccount
          let creditTxn : Txn :=
            { id := toAccount ++ "-" ++ intStr (Int.ofNat (n2 + 1))
              tenantId := tenantId
              accountId := to_account_data.accountId
              debitAmount := 0
              creditAmount := amount
              accountBalance := to_account_data.balance + amount }
          let s3 := create_transaction_record s2 toAccount (n2 + 1) creditTxn
          let s4 := patch_account_record s3 to_account_data.accountId
            (to_account_data.balance + amount)
          (s4, "Successfully transferred $" ++ intStr amount ++ " from "
            ++ fromAccount ++ " to " ++ toAccount ++ ".")

/-- A transaction record of the HTTP MCP server (mcp_http_server.py): a
single signed amount and post balance instead of debit/credit legs. -/
structure HttpTxn where
  id : String
  accountId : String
  amount : Int
  balance : Int
  tenantId : String
  userId : String
  threadId : String
deriving Repr, DecidableEq

/-- Store of the HTTP MCP server model. -/
structure HttpState where
  accounts : List (String × Account)
  latestNum : List (String × Nat)
  txns : List HttpTxn
deriving Repr, DecidableEq

/-- Zero padding to width 6, modelling the Python format `{n:06d}`. -/
def pad6 (n : Nat) : String :=
  let s := Nat.repr n
  String.mk (List.replicate (6 - s.length) '0') ++ s

/-- Model of `call_bank_transfer` (mcp_http_server.py, lines 137-238):
collect missing or invalid parameters, fetch the source account, check
the balance, patch the source balance, silently credit the destination
only when it exists, then write one transaction record on the source
account. The Python type text inside the invalid-amount element and the
`.2f` float rendering are modelled by plain decimal rendering. -/
def call_bank_transfer (s : HttpState) (fromAccount toAccount : String)
    (amount : Int) (tenantId userId threadId : String) : HttpState × String :=
  let missing :=
    (if fromAccount = "" then ["fromAccount"] else []) ++
    (if toAccount = "" then ["toAccount"] else []) ++
    (if tenantId = "" then ["tenantId"] else []) ++
    (if userId = "" then ["userId"] else []) ++
    (if threadId = "" then ["thread_id"] else []) ++
    (if amount ≤ 0 then ["amount (got " ++ intStr amount ++ ")"] else [])
  if missing.isEmpty then
    match lookupKey fromAccount s.accounts with
    | none => (s, "Source account " ++ fromAccount ++ " not found")
    | some source_account =>
      if source_account.balance < amount then
        (s, "Insufficient funds. Current balance: $" ++ intStr source_account.balance)
      else
        let new_source_balance := source_account.balance - amount
        let s1 : HttpState :=
          { s with accounts := (patchAccounts s.accounts source_account.accountId
              new_source_balance) }
        let s2 : HttpState :=
          match lookupKey toAccount s1.accounts with
          | none => s1
          | some dest_account =>
            { s1 with accounts := (patchAccounts s1.accounts dest_account.accountId
                (dest_account.balance + amount)) }
        let transaction_number := (lookupKey fromAccount s2.latestNum).getD 0 + 1
        let t : HttpTxn :=
          { id := "T" ++ pad6 transaction_number
            accountId := fromAccount
            amount := -amount
            balance := new_source_balance
            tenantId := tenantId
            userId := userId
            threadId := threadId }
        let s3 : HttpState :=
          { s2 with txns := s2.txns ++ [t]
                    latestNum := (fromAccount, transaction_number) :: s2.latestNum }
        (s3, "Successfully transferred $" ++ intStr amount ++ " from "
          ++ fromAccount ++ " to " ++ toAccount ++ ". New balance: $"
          ++ intStr new_source_balance)
  else
    (s, "Error: Missing or invalid parameters: " ++ String.intercalate ", " missing)

/-! ## Helper lemmas -/

lemma digitChar_ne_F (n : Nat) : Nat.digitChar n ≠ 'F' := by
  rcases Nat.lt_or_ge n 16 with h | h
  · interval_cases n <;> decide
  · simp only [Nat.digitChar, show n ≠ 0 by omega, show n ≠ 1 by omega,
      show n ≠ 2 by omega, show n ≠ 3 by omega, show n ≠ 4 by omega,
      show n ≠ 5 by omega, show n ≠ 6 by omega, show n ≠ 7 by omega,
      show n ≠ 8 by omega, show n ≠ 9 by omega, show n ≠ 10 by omega,
      show n ≠ 11 by omega, show n ≠ 12 by omega, show n ≠ 13 by omega,
      show n ≠ 14 by omega, show n ≠ 15 by omega, if_false, ite_false]
    decide

lemma toDigitsCore_ne_F :
    ∀ (fuel b n : Nat) (ds : List Char), (∀ c ∈ ds, c ≠ 'F') →
      ∀ c ∈ Nat.toDigitsCore b fuel n ds, c ≠ 'F' := by
  intro fuel
  induction fuel with
  | zero =>
    intro b n ds h
    simpa [Nat.toDigitsCore] using h
  | succ fuel ih =>
    intro b n ds h
    have hcons : ∀ c ∈ Nat.digitChar (n % b) :: ds, c ≠ 'F' := by
      intro c hc
      rcases List.mem_cons.mp hc with h1 | h1
      · exact h1 ▸ digitChar_ne_F (n % b)
      · exact h c h1
    simp only [Nat.toDigitsCore]
    split
    · exact hcons
    · exact ih b (n / b) _ hcons

lemma natRepr_ne_F (n : Nat) : ∀ c ∈ (Nat.repr n).data, c ≠ 'F' := by
  have hd : (Nat.repr n).data = Nat.toDigitsCore 10 (n + 1) n [] := rfl
  rw [hd]
  exact toDigitsCore_ne_F (n + 1) 10 n [] (by simp)

lemma intStr_ne_F (i : Int) : ∀ c ∈ (intStr i).data, c ≠ 'F' := by
  cases i with
  | ofNat m => exact natRepr_ne_F m
  | negSucc m =>
    intro c hc
    have : c ∈ ("-" : String).data ∨ c ∈ (Nat.repr (m + 1)).data := by
      simpa [intStr, String.data_append] using hc
    rcases this with h1 | h1
    · have : c = '-' := by simpa using h1
      simp [this]
    · exact natRepr_ne_F (m + 1) c h1

lemma occursIn_append_of_ne (p : Char) (ps xs ys : List Char)
    (h : ∀ c ∈ xs, c ≠ p) :
    occursIn (p :: ps) (xs ++ ys) = occursIn (p :: ps) ys := by
  induction xs with
  | nil => rfl
  | cons x xs ih =>
    have hx : decide (p = x) = false := by
      have : x ≠ p := h x (by simp)
      simp [Ne.symm this]
    have h' : ∀ c ∈ xs, c ≠ p := fun c hc => h c (by simp [hc])
    simp only [List.cons_append, occursIn, matchesAt, hx, Bool.false_and,
      Bool.false_or]
    exact ih h'

lemma containsFailed_leg_msg (amt : Int) (acct : String) :
    containsFailed ("Successfully transferred $" ++ intStr amt
        ++ " to account number " ++ acct)
      = containsFailed acct := by
  unfold containsFailed
  have hpat : "Failed".data = 'F' :: "ailed".data := rfl
  have hdata : ("Successfully transferred $" ++ intStr amt
      ++ " to account number " ++ acct).data
      = ("Successfully transferred $".data ++ (intStr amt).data
          ++ " to account number ".data) ++ acct.data := by
    simp [String.data_append, List.append_assoc]
  have hlit1 : ∀ c ∈ "Successfully transferred $".data, c ≠ 'F' := by decide
  have hlit2 : ∀ c ∈ " to account number ".data, c ≠ 'F' := by decide
  rw [hpat, hdata, occursIn_append_of_ne]
  intro c hc
  rcases List.mem_append.mp hc with h1 | h1
  · rcases List.mem_append.mp h1 with h2 | h2
    · exact hlit1 c h2
    · exact intStr_ne_F amt c h2
  · exact hlit2 c h1

lemma lookupKey_patchAccounts (l : List (String × Account)) (num aid : String)
    (b : Int) :
    lookupKey num (patchAccounts l aid b)
      = (lookupKey num l).map
          (fun a => if a.accountId = aid then { a with balance := b } else a) := by
  induction l with
  | nil => rfl
  | cons p l ih =>
    rcases p with ⟨k, a⟩
    by_cases hk : num = k
    · simp [patchAccounts, lookupKey, hk]
    · simpa [patchAccounts, lookupKey, hk] using ih

lemma runAttempts_none (read : Nat → Nat) (confl : Nat → Bool) :
    ∀ (fuel start : Nat), (∀ i, i < fuel → confl (start + i) = true) →
      runAttempts read confl start fuel = none := by
  intro fuel
  induction fuel with
  | zero => intro start _; rfl
  | succ fuel ih =>
    intro start h
    have h0 : confl start = true := by simpa using h 0 (Nat.succ_pos _)
    have hrest : ∀ i, i < fuel → confl (start + 1 + i) = true := by
      intro i hi
      have := h (i + 1) (by omega)
      have harith : start + (i + 1) = start + 1 + i := by omega
      rwa [harith] at this
    simp [runAttempts, h0, ih (start + 1) hrest]

lemma runAttempts_none_inv (read : Nat → Nat) (confl : Nat → Bool) :
    ∀ (fuel start : Nat), runAttempts read confl start fuel = none →
      ∀ i, i < fuel → confl (start + i) = true := by
  intro fuel
  induction fuel with
  | zero => intro start _ i hi; omega
  | succ fuel ih =>
    intro start h i hi
    by_cases h0 : confl start = true
    · rcases Nat.eq_zero_or_pos i with h1 | h1
      · simpa [h1] using h0
      · have hrec : runAttempts read confl (start + 1) fuel = none := by
          simpa [runAttempts, h0] using h
        have := ih (start + 1) hrec (i - 1) (by omega)
        have harith : start + 1 + (i - 1) = start + i := by omega
        rwa [harith] at this
    · have h0' : confl start = false := by
        cases hc : confl start
        · rfl
        · exact absurd hc h0
      simp [runAttempts, h0'] at h

lemma runAttempts_some_char (read : Nat → Nat) (confl : Nat → Bool) :
    ∀ (fuel start j n : Nat), runAttempts read confl start fuel = some (j, n) →
      start ≤ j ∧ j < start + fuel ∧ n = read j ∧ confl j = false ∧
        ∀ i, start ≤ i → i < j → confl i = true := by
  intro fuel
  induction fuel with
  | zero => intro start j n h; simp [runAttempts] at h
  | succ fuel ih =>
    intro start j n h
    by_cases h0 : confl start = true
    · have hrec : runAttempts read confl (start + 1) fuel = some (j, n) := by
        simpa [runAttempts, h0] using h
      obtain ⟨hle, hlt, hn, hcf, hall⟩ := ih (start + 1) j n hrec
      refine ⟨by omega, by omega, hn, hcf, ?_⟩
      intro i hi1 hi2
      rcases Nat.eq_or_lt_of_le hi1 with h1 | h1
      · exact h1 ▸ h0
      · exact hall i (by omega) hi2
    · have h0' : confl start = false := by
        cases hc : confl start
        · rfl
        · exact absurd hc h0
      have heq : (start, read start) = (j, n) := by
        simpa [runAttempts, h0'] using h
      have hj : start = j := congrArg Prod.fst heq
      have hn : read start = n := congrArg Prod.snd heq
      subst hj
      exact ⟨Nat.le_refl _, by omega, hn.symm, h0',
        fun i hi1 hi2 => absurd hi2 (by omega)⟩

lemma runAttempts_some_of_exists (read : Nat → Nat) (confl : Nat → Bool)
    (h : ∃ i, i < 5 ∧ confl i = false) :
    ∃ j, runAttempts read confl 0 5 = some (j, read j) := by
  cases hrun : runAttempts read confl 0 5 with
  | none =>
    obtain ⟨i, hi, hci⟩ := h
    have := runAttempts_none_inv read confl 5 0 hrun i hi
    simp [hci] at this
  | some p =>
    rcases p with ⟨j, n⟩
    obtain ⟨_, _, hn, _, _⟩ := runAttempts_some_char read confl 5 0 j n hrun
    exact ⟨j, by rw [← hn]⟩

lemma bank_transaction_eq_of_some (read : Nat → Nat) (confl : Nat → Bool)
    (tenantId userId : String) (s : BankState) (acct : String)
    (amt cr db : Int) (a : Account) (j n : Nat)
    (hf : fetch_account_by_number s acct = some a)
    (hr : runAttempts read confl 0 5 = some (j, n)) :
    bank_transaction read confl tenantId userId s acct amt cr db
      = (patch_account_record
          (create_transaction_record s acct (n + 1) (ledgerTxn tenantId a acct n cr db))
          a.accountId (a.balance + cr - db),
        "Successfully transferred $" ++ intStr amt ++ " to account number " ++ acct) := by
  simp [bank_transaction, hf, hr]

lemma bank_transaction_eq_of_exhausted (read : Nat → Nat) (confl : Nat → Bool)
    (tenantId userId : String) (s : BankState) (acct : String)
    (amt cr db : Int) (a : Account)
    (hf : fetch_account_by_number s acct = some a)
    (hc : ∀ i, i < 5 → confl i = true) :
    bank_transaction read confl tenantId userId s acct amt cr db
      = (s, "Failed to create transaction record after 5 attempts: conflict") := by
  have hrun : runAttempts read confl 0 5 = none :=
    runAttempts_none read confl 5 0 (by simpa using hc)
  simp [bank_transaction, hf, hrun]

/-! ## Ledger theorems -/

/-- C1 counterexample: a transfer satisfying every condition of the claim
(amount 10 > 0, both accounts exist, source balance 100 at least 10) whose
source account number contains the substring "Failed". The debit leg
commits, but its success message interpolates the account number, so the
substring check in `transfer` wrongly classifies the debit leg as failed:
the credit leg never runs, only one new Transaction record exists and the
destination balance is unchanged, refuting the claim as stated. -/
theorem C1_transfer_postcondition_counterexample :
    (transfer (fun _ => false) (fun _ => false) "T" "U"
      ⟨[("AFailed", ⟨"acc1", 100⟩), ("B2", ⟨"acc2", 50⟩)], [], []⟩
      "B2" "AFailed" 10).1.txns.length = 1 ∧
    balanceOf (transfer (fun _ => false) (fun _ => false) "T" "U"
      ⟨[("AFailed", ⟨"acc1", 100⟩), ("B2", ⟨"acc2", 50⟩)], [], []⟩
      "B2" "AFailed" 10).1 "B2" = some 50 ∧
    (transfer (fun _ => false) (fun _ => false) "T" "U"
      ⟨[("AFailed", ⟨"acc1", 100⟩), ("B2", ⟨"acc2", 50⟩)], [], []⟩
      "B2" "AFailed" 10).2
      = "Failed to debit amount from AFailed: Successfully transferred $10 to account number AFailed" :=
  ⟨rfl, rfl, rfl⟩

/-- C1 (amended): for every transfer with amount > 0, two distinct
existing accounts (distinct numbers and accountIds), source balance at
least the amount, each leg succeeding within its 5 attempts, and a source
account number that does not contain the substring "Failed" (the
substring-based failure detection of `transfer` falsely fires otherwise),
the post-state has the source balance decreased by the amount, the
destination balance increased by the amount, and exactly two new
Transaction records: a debit leg with debitAmount = amount and
creditAmount = 0, and a credit leg with creditAmount = amount and
debitAmount = 0, whose accountBalance fields equal the respective account
balances immediately after the mutation of each leg. -/
theorem C1_transfer_success (conflD conflC : Nat → Bool)
    (tenantId userId : String) (s : BankState) (toA fromA : String)
    (amt : Int) (src dst : Account)
    (hne : fromA ≠ toA)
    (hid : src.accountId ≠ dst.accountId)
    (hF : containsFailed fromA = false)
    (hsrc : fetch_account_by_number s fromA = some src)
    (hdst : fetch_account_by_number s toA = some dst)
    (hamt : 0 < amt) (hbal : amt ≤ src.balance)
    (hD : ∃ i, i < 5 ∧ conflD i = false)
    (hC : ∃ i, i < 5 ∧ conflC i = false) :
    balanceOf (transfer conflD conflC tenantId userId s toA fromA amt).1 fromA
        = some (src.balance - amt) ∧
    balanceOf (transfer conflD conflC tenantId userId s toA fromA amt).1 toA
        = some (dst.balance + amt) ∧
    ∃ dT cT,
      (transfer conflD conflC tenantId userId s toA fromA amt).1.txns
          = s.txns ++ [dT, cT] ∧
      dT.debitAmount = amt ∧ dT.creditAmount = 0 ∧
      dT.accountBalance = src.balance - amt ∧
      cT.debitAmount = 0 ∧ cT.creditAmount = amt ∧
      cT.accountBalance = dst.balance + amt := by
  obtain ⟨j1, hr1⟩ := runAttempts_some_of_exists
    (fun _ => fetch_latest_transaction_number s fromA) conflD hD
  have h1 := bank_transaction_eq_of_some
    (fun _ => fetch_latest_transaction_number s fromA) conflD tenantId userId
    s fromA amt 0 amt src j1 (fetch_latest_transaction_number s fromA) hsrc hr1
  have hmsg1 : containsFailed ("Successfully transferred $" ++ intStr amt
      ++ " to account number " ++ fromA) = false := by
    rw [containsFailed_leg_msg]; exact hF
  have hdst' : fetch_account_by_number
      (patch_account_record
        (create_transaction_record s fromA
          (fetch_latest_transaction_number s fromA + 1)
          (ledgerTxn tenantId src fromA
            (fetch_latest_transaction_number s fromA) 0 amt))
        src.accountId (src.balance + 0 - amt)) toA = some dst := by
    simp [fetch_account_by_number, patch_account_record,
      create_transaction_record, lookupKey_patchAccounts] at hdst ⊢
    simp [hdst, Ne.symm hid]
  obtain ⟨j2, hr2⟩ := runAttempts_some_of_exists
    (fun _ => fetch_latest_transaction_number
      (patch_account_record
        (create_transaction_record s fromA
          (fetch_latest_transaction_number s fromA + 1)
          (ledgerTxn tenantId src fromA
            (fetch_latest_transaction_number s fromA) 0 amt))
        src.accountId (src.balance + 0 - amt)) toA) conflC hC
  have h2 := bank_transaction_eq_of_some _ conflC tenantId userId _ toA amt amt 0
    dst j2 _ hdst' hr2
  have hstate : (transfer conflD conflC tenantId userId s toA fromA amt).1
      = patch_account_record
          (create_transaction_record
            (patch_account_record
              (create_transaction_record s fromA
                (fetch_latest_transaction_number s fromA + 1)
                (ledgerTxn tenantId src fromA
                  (fetch_latest_transaction_number s fromA) 0 amt))
              src.accountId (src.balance + 0 - amt))
            toA
            (fetch_latest_transaction_number
              (patch_account_record
                (create_transaction_record s fromA
                  (fetch_latest_transaction_number s fromA + 1)
                  (ledgerTxn tenantId src fromA
                    (fetch_latest_transaction_number s fromA) 0 amt))
                src.accountId (src.balance + 0 - amt)) toA + 1)
            (ledgerTxn tenantId dst toA
              (fetch_latest_transaction_number
                (patch_account_record
                  (create_transaction_record s fromA
                    (fetch_latest_transaction_number s fromA + 1)
                    (ledgerTxn tenantId src fromA
                      (fetch_latest_transaction_number s fromA) 0 amt))
                  src.accountId (src.balance + 0 - amt)) toA) amt 0))
          dst.accountId (dst.balance + amt - 0) := by
    unfold transfer
    rw [h1]
    simp only [hmsg1, Bool.false_eq_true, if_false, h2]
    split <;> rfl
  refine ⟨?_, ?_, ?_⟩
  · rw [hstate]
    simp [balanceOf, fetch_account_by_number, patch_account_record,
      create_transaction_record, lookupKey_patchAccounts] at hsrc ⊢
    simp [hsrc, hid]
  · rw [hstate]
    simp [balanceOf, fetch_account_by_number, patch_account_record,
      create_transaction_record, lookupKey_patchAccounts] at hdst ⊢
    simp [hdst, Ne.symm hid]
  · refine ⟨ledgerTxn tenantId src fromA
        (fetch_latest_transaction_number s fromA) 0 amt,
      ledgerTxn tenantId dst toA
        (fetch_latest_transaction_number
          (patch_account_record
            (create_transaction_record s fromA
              (fetch_latest_transaction_number s fromA + 1)
              (ledgerTxn tenantId src fromA
                (fetch_latest_transaction_number s fromA) 0 amt))
            src.accountId (src.balance + 0 - amt)) toA) amt 0,
      ?_, ?_, ?_, ?_, ?_, ?_, ?_⟩
    · rw [hstate]
      simp [patch_account_record, create_transaction_record, patchAccounts]
    · rfl
    · rfl
    · simp [ledgerTxn]
    · rfl
    · rfl
    · simp [ledgerTxn]

/-- Sample store used by witnesses and counterexamples. -/
def exampleBank : BankState :=
  ⟨[("A1", ⟨"acc1", 100⟩), ("B2", ⟨"acc2", 50⟩)], [], []⟩

/-- Sample store with a low source balance. -/
def lowBank : BankState :=
  ⟨[("A1", ⟨"acc1", 5⟩), ("B2", ⟨"acc2", 50⟩)], [], []⟩

/-- Sample store holding only the source account. -/
def soloBank : BankState :=
  ⟨[("A1", ⟨"acc1", 100⟩)], [], []⟩

/-- Sample HTTP server store with a low source balance. -/
def exampleHttp : HttpState := ⟨[("A1", ⟨"acc1", 5⟩)], [], []⟩

/-- Environment with no write conflicts. -/
def noConflict : Nat → Bool := fun _ => false

/-- Environment whose first two attempts conflict. -/
def twoConflicts : Nat → Bool := fun i => decide (i < 2)

/-- Environment in which every attempt conflicts. -/
def allConflicts : Nat → Bool := fun _ => true

/-- Read oracle returning 7 + attempt index. -/
def shiftRead : Nat → Nat := fun i => 7 + i

/-- C1 witness: a concrete conflict-free transfer of 10 from A1 (balance
100) to B2 (balance 50) ends with balances 90 and 60 and exactly the two
leg records. -/
theorem C1_transfer_success_witness :
    balanceOf (transfer noConflict noConflict "T" "U" exampleBank
        "B2" "A1" 10).1 "A1" = some 90 ∧
    balanceOf (transfer noConflict noConflict "T" "U" exampleBank
        "B2" "A1" 10).1 "B2" = some 60 ∧
    ∃ dT cT,
      (transfer noConflict noConflict "T" "U" exampleBank "B2" "A1" 10).1.txns
          = [] ++ [dT, cT] ∧
      dT.debitAmount = 10 ∧ dT.creditAmount = 0 ∧ dT.accountBalance = 90 ∧
      cT.debitAmount = 0 ∧ cT.creditAmount = 10 ∧ cT.accountBalance = 60 :=
  C1_transfer_success noConflict noConflict "T" "U" exampleBank "B2" "A1" 10
    ⟨"acc1", 100⟩ ⟨"acc2", 50⟩ (by decide) (by decide) (by decide) rfl rfl
    (by decide) (by decide) ⟨0, by decide, rfl⟩ ⟨0, by decide, rfl⟩

/-- C2 counterexample: the transactions.py `transfer` with source balance
5 and amount 10 creates two Transaction records, overdraws the source to
-5, credits the destination, and reports success: the claim (zero
records, balances unchanged, insufficient-funds text) fails on the
cited `bank_transaction` path, which has no balance check at all. -/
theorem C2_no_balance_check_counterexample :
    (transfer noConflict noConflict "T" "U" lowBank "B2" "A1" 10).1.txns.length
        = 2 ∧
    balanceOf (transfer noConflict noConflict "T" "U" lowBank "B2" "A1" 10).1
        "A1" = some (-5) ∧
    balanceOf (transfer noConflict noConflict "T" "U" lowBank "B2" "A1" 10).1
        "B2" = some 60 ∧
    (transfer noConflict noConflict "T" "U" lowBank "B2" "A1" 10).2
        = "Successfully transferred $10 from account A1 to account B2" :=
  ⟨rfl, rfl, rfl, rfl⟩

/-- C2 (amended): the two MCP dispatcher transfer implementations do
guard the balance: with a positive amount, both account numbers present,
an existing source account, and source balance strictly below the amount,
`_call_bank_transfer_direct` and `call_bank_transfer` leave their store
untouched (zero new Transaction records, no balance change) and return a
normal result text indicating insufficient funds. The transactions.py
`transfer` tool performs no balance check (see the counterexample). -/
theorem C2_insufficient_funds_guard
    (tenantId userId threadId : String) (s : BankState) (hs : HttpState)
    (fromA toA : String) (amt : Int) (src : Account)
    (hamt : 0 < amt) (hfrom : fromA ≠ "") (hto : toA ≠ "")
    (ht : tenantId ≠ "") (hu : userId ≠ "") (hth : threadId ≠ "")
    (hsrc : fetch_account_by_number s fromA = some src)
    (hsrc2 : lookupKey fromA hs.accounts = some src)
    (hlow : src.balance < amt) :
    bank_transfer_direct tenantId userId s fromA toA amt
      = (s, "Insufficient funds in account " ++ fromA
          ++ ". Current balance: $" ++ intStr src.balance)
    ∧ call_bank_transfer hs fromA toA amt tenantId userId threadId
      = (hs, "Insufficient funds. Current balance: $" ++ intStr src.balance) := by
  have h1 : ¬ amt ≤ 0 := by omega
  constructor
  · simp [bank_transfer_direct, h1, hfrom, hto, hsrc, hlow]
  · simp [call_bank_transfer, h1, hfrom, hto, ht, hu, hth, hsrc2, hlow]

/-- C2 witness: concrete insufficient-funds calls on both MCP server
implementations with balance 5 and amount 10. -/
theorem C2_insufficient_funds_guard_witness :
    bank_transfer_direct "T" "U" lowBank "A1" "B2" 10
      = (lowBank, "Insufficient funds in account A1. Current balance: $5")
    ∧ call_bank_transfer exampleHttp "A1" "B2" 10 "T" "U" "th"
      = (exampleHttp, "Insufficient funds. Current balance: $5") :=
  C2_insufficient_funds_guard "T" "U" "th" lowBank exampleHttp "A1" "B2" 10
    ⟨"acc1", 5⟩ (by decide) (by decide) (by decide) (by decide) (by decide)
    (by decide) rfl rfl (by decide)

/-- C3 evaluation at the failing input: source A1 (balance 100) exists,
destination A2 does not. The debit leg commits (one record, balance
patched to 50) and `bank_transaction` then answers "Account A2 not
found...", a message that does not contain "Failed", so the substring
check in `transfer` misses it and the whole operation returns the plain
success message instead of the terminal error the claim (and the spec)
require. The committed debit leg is indeed not rolled back and no
compensating record is created, but the result is not an error. -/
theorem C3_destination_not_found_eval :
    (transfer noConflict noConflict "T" "U" soloBank "A2" "A1" 50).2
        = "Successfully transferred $50 from account A1 to account A2" ∧
    (transfer noConflict noConflict "T" "U" soloBank "A2" "A1" 50).1.txns.length
        = 1 ∧
    balanceOf (transfer noConflict noConflict "T" "U" soloBank "A2" "A1" 50).1
        "A1" = some 50 ∧
    fetch_account_by_number
        (transfer noConflict noConflict "T" "U" soloBank "A2" "A1" 50).1 "A2"
        = none :=
  ⟨rfl, rfl, rfl, rfl⟩

/-- C7 counterexample: the transactions.py `transfer` performs no amount
validation: with amount -5 it creates two Transaction records (debit leg
with debitAmount = -5), increases the source balance to 105, decreases
the destination to 45, and reports success, refuting the claim for the
cited `transfer` symbol. -/
theorem C7_no_amount_validation_counterexample :
    (transfer noConflict noConflict "T" "U" exampleBank "B2" "A1" (-5)).1.txns.length
        = 2 ∧
    balanceOf (transfer noConflict noConflict "T" "U" exampleBank "B2" "A1"
        (-5)).1 "A1" = some 105 ∧
    (transfer noConflict noConflict "T" "U" exampleBank "B2" "A1" (-5)).2
        = "Successfully transferred $-5 from account A1 to account B2" :=
  ⟨rfl, rfl, rfl⟩

/-- C7 (amended): the MCP dispatcher transfer implementations do validate
the amount before any mutation: for amount ≤ 0 (and otherwise well-formed
parameters) `_call_bank_transfer_direct` returns its InvalidArgument text
and `call_bank_transfer` returns its missing-or-invalid-parameters text,
both leaving the store untouched. The transactions.py `transfer` tool has
no such validation (see the counterexample). -/
theorem C7_amount_validation (tenantId userId threadId : String)
    (s : BankState) (hs : HttpState) (fromA toA : String) (amt : Int)
    (hamt : amt ≤ 0) (hfrom : fromA ≠ "") (hto : toA ≠ "")
    (ht : tenantId ≠ "") (hu : userId ≠ "") (hth : threadId ≠ "") :
    bank_transfer_direct tenantId userId s fromA toA amt
      = (s, "Transfer amount must be greater than zero.")
    ∧ call_bank_transfer hs fromA toA amt tenantId userId threadId
      = (hs, "Error: Missing or invalid parameters: "
          ++ ("amount (got " ++ intStr amt ++ ")")) := by
  constructor
  · simp [bank_transfer_direct, hamt]
  · simp [call_bank_transfer, hamt, hfrom, hto, ht, hu, hth,
      String.intercalate, String.intercalate.go]

/-- C7 witness: concrete rejections of amount -5 by both MCP server
implementations. -/
theorem C7_amount_validation_witness :
    bank_transfer_direct "T" "U" lowBank "A1" "B2" (-5)
      = (lowBank, "Transfer amount must be greater than zero.")
    ∧ call_bank_transfer exampleHttp "A1" "B2" (-5) "T" "U" "th"
      = (exampleHttp, "Error: Missing or invalid parameters: amount (got -5)") :=
  C7_amount_validation "T" "U" "th" lowBank exampleHttp "A1" "B2" (-5)
    (by decide) (by decide) (by decide) (by decide) (by decide) (by decide)

/-- C8: the ledger leg retry loop of `bank_transaction` is bounded at 5
attempts in total: when every one of the 5 attempts conflicts the
function returns (not raises) the terminal error string with the store
untouched; when attempt j succeeds then j < 5, every earlier attempt
conflicted, and the written record derives its id from the number
`read j` freshly read on the successful attempt. -/
theorem C8_bounded_retry (read : Nat → Nat) (confl : Nat → Bool)
    (tenantId userId : String) (s : BankState) (acct : String)
    (amt cr db : Int) (a : Account)
    (hf : fetch_account_by_number s acct = some a) :
    ((∀ i, i < 5 → confl i = true) →
      bank_transaction read confl tenantId userId s acct amt cr db
        = (s, "Failed to create transaction record after 5 attempts: conflict"))
    ∧ (∀ j n, runAttempts read confl 0 5 = some (j, n) →
        j < 5 ∧ n = read j ∧ confl j = false ∧
        (∀ i, i < j → confl i = true) ∧
        (bank_transaction read confl tenantId userId s acct amt cr db).1.txns
          = s.txns ++ [ledgerTxn tenantId a acct (read j) cr db]) := by
  constructor
  · exact bank_transaction_eq_of_exhausted read confl tenantId userId s acct
      amt cr db a hf
  · intro j n hr
    obtain ⟨h0, hlt, hn, hcf, hall⟩ := runAttempts_some_char read confl 5 0 j n hr
    refine ⟨by omega, hn, hcf, fun i hi => hall i (by omega) hi, ?_⟩
    rw [bank_transaction_eq_of_some read confl tenantId userId s acct amt cr db
      a j n hf hr]
    simp [create_transaction_record, patch_account_record, hn]

/-- C8 witness: with the first two attempts conflicting and the read
oracle answering 7 + attempt, the loop succeeds on attempt 2 and the
written record uses the number read there (9, so id A1-10). -/
theorem C8_bounded_retry_witness :
    (bank_transaction shiftRead twoConflicts "T" "U" soloBank "A1" 5 0 5).1.txns
      = [] ++ [ledgerTxn "T" ⟨"acc1", 100⟩ "A1" (shiftRead 2) 0 5] :=
  ((C8_bounded_retry shiftRead twoConflicts "T" "U" soloBank "A1" 5 0 5
    ⟨"acc1", 100⟩ rfl).2 2 9 rfl).2.2.2.2

/-- C10: in every ledger leg the account balance patch happens only after
the Transaction record write succeeded within the 5 attempts: if all 5
attempts fail, `bank_transaction` returns the error result with the store
(in particular the stored balance) unchanged; and whenever the resulting
accounts differ from the initial ones, a new Transaction record was
appended. -/
theorem C10_patch_only_after_write (read : Nat → Nat) (confl : Nat → Bool)
    (tenantId userId : String) (s : BankState) (acct : String)
    (amt cr db : Int) (a : Account)
    (hf : fetch_account_by_number s acct = some a) :
    ((∀ i, i < 5 → confl i = true) →
      (bank_transaction read confl tenantId userId s acct amt cr db).1 = s ∧
      containsFailed
        (bank_transaction read confl tenantId userId s acct amt cr db).2 = true)
    ∧ ((bank_transaction read confl tenantId userId s acct amt cr db).1.accounts
          ≠ s.accounts →
        (bank_transaction read confl tenantId userId s acct amt cr db).1.txns.length
          = s.txns.length + 1) := by
  constructor
  · intro hc
    rw [bank_transaction_eq_of_exhausted read confl tenantId userId s acct
      amt cr db a hf hc]
    exact ⟨rfl, rfl⟩
  · cases hrun : runAttempts read confl 0 5 with
    | none =>
      intro hacc
      have hbt : bank_transaction read confl tenantId userId s acct amt cr db
          = (s, "Failed to create transaction record after 5 attempts: conflict") := by
        simp [bank_transaction, hf, hrun]
      rw [hbt] at hacc
      simp at hacc
    | some p =>
      rcases p with ⟨j, n⟩
      intro _
      rw [bank_transaction_eq_of_some read confl tenantId userId s acct amt cr
        db a j n hf hrun]
      simp [create_transaction_record, patch_account_record]

/-- C10 witness: with every attempt conflicting, the concrete leg leaves
the store untouched (balance still 100, no record) and returns the
terminal error text. -/
theorem C10_patch_only_after_write_witness :
    (bank_transaction shiftRead allConflicts "T" "U" soloBank "A1" 5 0 5).1
      = soloBank ∧
    containsFailed
      (bank_transaction shiftRead allConflicts "T" "U" soloBank "A1" 5 0 5).2
      = true :=
  (C10_patch_only_after_write shiftRead allConflicts "T" "U" soloBank "A1" 5 0 5
    ⟨"acc1", 100⟩ rfl).1 (fun i _ => rfl)

end BankingSpec
